import Mathlib

/-!
Verification development for the `data-subscriber-query` lambda
(`src/lambdas/data-subscriber-query/data_subscriber_query_lambda.py`).

The Python handler is embedded shallowly:

* datetimes are epoch seconds (`Int`), converted to and from the proleptic
  Gregorian calendar with the standard civil-calendar algorithms, so that
  `strftime("%Y-%m-%dT%H:%M:%SZ")` and `dateutil.parser.isoparse` become
  executable Lean functions;
* the process environment is an explicit record of `Option String` fields
  (a missing variable is `none`; `os.environ[k]` on `none` is a `KeyError`);
* the fallible control flow is `Except PyErr`, with one constructor per
  Python exception class that can surface;
* the HTTP layer is split at the `requests.post` call: everything the
  handler computes before the POST is `build_job_submission`, the form body
  of the POST is `submit_job_form`, and the processing of the HTTP response
  (`raise_for_status` + JSON interpretation) is `submit_job_response`.
  `lambda_handler` glues them together and also returns the list of
  requests that were actually sent, so that "fails before any network
  call" is expressible.
-/

/-- JSON values, the model of what `req.json()` returns. -/
inductive JVal where
  | jnull : JVal
  | jbool : Bool → JVal
  | jnum : Int → JVal
  | jstr : String → JVal
  | jarr : List JVal → JVal
  | jobj : List (String × JVal) → JVal

/-- The Python exceptions that can surface from the handler or from
`submit_job`.  `submissionError` is the `Exception(f"job not submitted
successfully: ...")` raised in `submit_job`; it carries the parsed
response body. -/
inductive PyErr where
  | keyError : String → PyErr
  | attributeError : PyErr
  | overflowError : PyErr
  | valueError : String → PyErr
  | httpError : Nat → PyErr
  | submissionError : JVal → PyErr

/-- The process environment: every variable the handler reads.
(`MOZART_URL` is read at module-load time, before any invocation, and only
feeds the submission URL; it plays no part in the claims and is omitted.) -/
structure Env where
  MINUTES : Option String
  ENDPOINT : Option String
  JOB_TYPE : Option String
  JOB_RELEASE : Option String
  JOB_QUEUE : Option String
  DOWNLOAD_JOB_QUEUE : Option String
  CHUNK_SIZE : Option String
  SMOKE_RUN : Option String
  DRY_RUN : Option String
  NO_SCHEDULE_DOWNLOAD : Option String
  USE_TEMPORAL : Option String
  BOUNDING_BOX : Option String
  TEMPORAL_START_DATETIME_MARGIN_DAYS : Option String
  TEMPORAL_START_DATETIME : Option String

/-- The EventBridge trigger event; only its `time` field is read. -/
structure Event where
  time : String

/-- An HTTP response from the job-submission endpoint: status code and the
JSON body (`none` when the body is not parseable JSON, in which case
`req.json()` raises). -/
structure HttpResponse where
  status : Nat
  body : Option JVal

/-- Everything `lambda_handler` passes to `submit_job`.  `priority` is the
default `0` of `submit_job`, made explicit because `lambda_handler` never
overrides it. -/
structure JobRequest where
  job_name : String
  job_spec : String
  job_params : List (String × String)
  queue : String
  tags : List String
  priority : Int

/-! ## Civil-calendar arithmetic (the datetime model) -/

/-- Days since 1970-01-01 of a proleptic Gregorian date (Hinnant's
`days_from_civil`, with floor division). -/
def days_from_civil (y m d : Int) : Int :=
  let y := y - (if m ≤ 2 then 1 else 0)
  let era := Int.fdiv y 400
  let yoe := y - era * 400
  let doy := Int.fdiv (153 * (m + (if m > 2 then -3 else 9)) + 2) 5 + d - 1
  let doe := yoe * 365 + Int.fdiv yoe 4 - Int.fdiv yoe 100 + doy
  era * 146097 + doe - 719468

/-- Date of a day count since 1970-01-01 (Hinnant's `civil_from_days`). -/
def civil_from_days (z : Int) : Int × Int × Int :=
  let z := z + 719468
  let era := Int.fdiv z 146097
  let doe := z - era * 146097
  let yoe := Int.fdiv (doe - Int.fdiv doe 1460 + Int.fdiv doe 36524 - Int.fdiv doe 146096) 365
  let y := yoe + era * 400
  let doy := doe - (365 * yoe + Int.fdiv yoe 4 - Int.fdiv yoe 100)
  let mp := Int.fdiv (5 * doy + 2) 153
  let d := doy - Int.fdiv (153 * mp + 2) 5 + 1
  let m := mp + (if mp < 10 then 3 else -9)
  (y + (if m ≤ 2 then 1 else 0), m, d)

/-- Zero-padded decimal rendering, as `%Y`/`%m`/... produce. -/
def padZ (w : Nat) (n : Nat) : String :=
  let s := Nat.repr n
  if s.length < w then String.mk (List.replicate (w - s.length) '0') ++ s else s

/-- `strftime(DATETIME_FORMAT)` with `DATETIME_FORMAT = "%Y-%m-%dT%H:%M:%SZ"`,
on epoch seconds. -/
def fmt_datetime (t : Int) : String :=
  let days := Int.fdiv t 86400
  let rem := (t - days * 86400).toNat
  let c := civil_from_days days
  padZ 4 c.1.toNat ++ "-" ++ padZ 2 c.2.1.toNat ++ "-" ++ padZ 2 c.2.2.toNat ++
    "T" ++ padZ 2 (rem / 3600) ++ ":" ++ padZ 2 (rem / 60 % 60) ++ ":" ++ padZ 2 (rem % 60) ++ "Z"

/-- `strftime(JOB_NAME_DATETIME_FORMAT)` with format `"%Y%m%dT%H%M%S"`. -/
def fmt_job_name_datetime (t : Int) : String :=
  let days := Int.fdiv t 86400
  let rem := (t - days * 86400).toNat
  let c := civil_from_days days
  padZ 4 c.1.toNat ++ padZ 2 c.2.1.toNat ++ padZ 2 c.2.2.toNat ++
    "T" ++ padZ 2 (rem / 3600) ++ padZ 2 (rem / 60 % 60) ++ padZ 2 (rem % 60)

/-- Python `datetime` objects span year 1 to year 9999; an arithmetic
result outside this range raises `OverflowError`.  In epoch seconds the
range is 0001-01-01T00:00:00 .. 9999-12-31T23:59:59. -/
def inDatetimeRange (t : Int) : Bool :=
  (-62135596800 ≤ t) && (t ≤ 253402300799)

/-- Length of a Gregorian month. -/
def days_in_month (y m : Int) : Int :=
  if m = 2 then
    if Int.emod y 4 = 0 && (Int.emod y 100 ≠ 0 || Int.emod y 400 = 0) then 29 else 28
  else if m = 4 || m = 6 || m = 9 || m = 11 then 30
  else 31

/-- Numeric value of a list of decimal digit characters (Python `int` on a
digit-only string). -/
def digitsToNat (cs : List Char) : Nat :=
  cs.foldl (fun a c => a * 10 + (c.toNat - 48)) 0

/-- Model of `dateutil.parser.isoparse`, restricted to the canonical shape
EventBridge delivers in `event.time`: `YYYY-MM-DDTHH:MM:SSZ` with a valid
calendar date.  Returns the epoch seconds of the instant. -/
def isoparse (s : String) : Option Int :=
  match s.data with
  | [y1, y2, y3, y4, '-', o1, o2, '-', a1, a2, 'T', h1, h2, ':', n1, n2, ':', s1, s2, 'Z'] =>
    if ([y1, y2, y3, y4, o1, o2, a1, a2, h1, h2, n1, n2, s1, s2].all Char.isDigit) then
      let y : Int := digitsToNat [y1, y2, y3, y4]
      let mo : Int := digitsToNat [o1, o2]
      let da : Int := digitsToNat [a1, a2]
      let hh := digitsToNat [h1, h2]
      let mi := digitsToNat [n1, n2]
      let ss := digitsToNat [s1, s2]
      if 1 ≤ y && y ≤ 9999 && 1 ≤ mo && mo ≤ 12 && 1 ≤ da && da ≤ days_in_month y mo
          && hh ≤ 23 && mi ≤ 59 && ss ≤ 59 then
        some (days_from_civil y mo da * 86400 + (hh * 3600 + mi * 60 + ss : Nat))
      else none
    else none
  | _ => none

/-! ## Small Python library functions used by the handler -/

/-- ASCII lowercasing of one character (what `str.lower()` does on the
ASCII tokens `strtobool` recognizes). -/
def asciiLower (c : Char) : Char :=
  if 'A' ≤ c && c ≤ 'Z' then Char.ofNat (c.toNat + 32) else c

/-- ASCII lowercasing of a string. -/
def lowerStr (s : String) : String :=
  String.mk (s.data.map asciiLower)

/-- `distutils.util.strtobool`, as `Option Bool` (`none` models the
`ValueError` on an unrecognized token). -/
def strtobool (s : String) : Option Bool :=
  let v := lowerStr s
  if v = "y" || v = "yes" || v = "t" || v = "true" || v = "on" || v = "1" then some true
  else if v = "n" || v = "no" || v = "f" || v = "false" || v = "off" || v = "0" then some false
  else none

/-- First maximal run of decimal digits of a character list, or `none`
when there is no digit: the value of `re.search(r"\d+", s)`. -/
def firstRunAux : List Char → Option (List Char)
  | [] => none
  | c :: cs =>
    if c.isDigit then some (c :: cs.takeWhile (fun x => x.isDigit))
    else firstRunAux cs

/-- `re.search(r"\d+", s).group()` as an `Option`: `none` models the
`AttributeError` raised when `re.search` returns `None`. -/
def firstDigitRun (s : String) : Option String :=
  (firstRunAux s.data).map String.mk

/-- Python whitespace stripped by `int(str)`. -/
def isPySpace (c : Char) : Bool :=
  c = ' ' || c = '\t' || c = '\n' || c = '\x0d' || c = '\x0b' || c = '\x0c'

/-- Digits of an integer literal after the first digit: further digits and
single underscores between digits (Python's `int` grammar). -/
def pyDigitsGo : List Char → Nat → Option Nat
  | [], acc => some acc
  | '_' :: c :: cs, acc =>
    if c.isDigit then pyDigitsGo cs (acc * 10 + (c.toNat - 48)) else none
  | c :: cs, acc =>
    if c.isDigit then pyDigitsGo cs (acc * 10 + (c.toNat - 48)) else none

/-- A nonempty digit string with optional single underscores between
digits. -/
def pyDigits : List Char → Option Nat
  | [] => none
  | c :: cs => if c.isDigit then pyDigitsGo cs (c.toNat - 48) else none

/-- Model of Python `int(str)`: surrounding whitespace, an optional sign,
then digits (with optional underscore separators); `none` models the
`ValueError` on anything else. -/
def pyInt (s : String) : Option Int :=
  let cs := (((s.data.dropWhile isPySpace).reverse.dropWhile isPySpace)).reverse
  match cs with
  | [] => none
  | '-' :: rest => (pyDigits rest).map (fun n => -(n : Int))
  | '+' :: rest => (pyDigits rest).map (fun n => (n : Int))
  | rest => (pyDigits rest).map (fun n => (n : Int))

/-! ## The handler -/

/-- `get_temporal_start_datetime` from the source.  The whole computation
`(query_end_datetime - relativedelta(days=int(margin))).strftime(...)`
sits in a `try`: both a margin that `int()` rejects and a subtraction
result outside the `datetime` range (an `OverflowError`) fall back to the
literal `TEMPORAL_START_DATETIME` (default `""`). -/
def get_temporal_start_datetime (env : Env) (query_end_datetime : Int) : String :=
  match pyInt (env.TEMPORAL_START_DATETIME_MARGIN_DAYS.getD "") with
  | some d =>
    let t := query_end_datetime - d * 86400
    if inDatetimeRange t then fmt_datetime t
    else env.TEMPORAL_START_DATETIME.getD ""
  | none => env.TEMPORAL_START_DATETIME.getD ""

/-- The successfully-computed `JobRequest` of one invocation, as assembled
at the end of `lambda_handler`: the `job_params` dict in its literal key
order, the `job-{type}:{release}` spec string, the fixed tag list, the
generated job name, and `submit_job`'s default priority 0.  `minutes` is
the digit run extracted from `MINUTES` (used both for the window and,
verbatim, in the job name). -/
def mk_job_request (env : Env) (now : Int) (query_end_datetime : Int)
    (minutes job_type job_release queue endpoint download_job_queue chunk_size : String)
    (smoke_run dry_run no_schedule_download use_temporal : Bool) : JobRequest :=
  let query_start_datetime := query_end_datetime - 60 * (digitsToNat minutes.data : Int)
  let temporal_start_datetime := get_temporal_start_datetime env query_end_datetime
  { job_name := "data-subscriber-query-timer-" ++ fmt_job_name_datetime now ++ "_" ++ minutes,
    job_spec := "job-" ++ job_type ++ ":" ++ job_release,
    job_params := [
      ("start_datetime", "--start-date=" ++ fmt_datetime query_start_datetime),
      ("end_datetime", "--end-date=" ++ fmt_datetime query_end_datetime),
      ("endpoint", "--endpoint=" ++ endpoint),
      ("download_job_release", "--release-version=" ++ job_release),
      ("download_job_queue", "--job-queue=" ++ download_job_queue),
      ("chunk_size", "--chunk-size=" ++ chunk_size),
      ("smoke_run", if smoke_run then "--smoke-run" else ""),
      ("dry_run", if dry_run then "--dry-run" else ""),
      ("no_schedule_download", if no_schedule_download then "--no-schedule-download" else ""),
      ("use_temporal", if use_temporal then "--use-temporal" else ""),
      ("temporal_start_datetime",
        if temporal_start_datetime = "" then ""
        else "--temporal-start-date=" ++ temporal_start_datetime),
      ("bounding_box",
        match env.BOUNDING_BOX with
        | some b => if b = "" then "" else "--bounds=" ++ b
        | none => "")],
    queue := queue,
    tags := ["data-subscriber-query-timer"],
    priority := 0 }

/-- The body of `lambda_handler` up to (but excluding) the `requests.post`
inside `submit_job`: parses the event time, extracts the window length,
computes the window and all job parameters, and assembles the
`JobRequest`.  Fallible steps appear in the source's evaluation order.
`now` is `datetime.utcnow()` in epoch seconds (it only feeds the job
name). -/
def build_job_submission (env : Env) (event : Event) (now : Int) : Except PyErr JobRequest :=
  match isoparse event.time with
  | none => Except.error (PyErr.valueError "Invalid isoformat string")
  | some query_end_datetime =>
    match env.MINUTES with
    | none => Except.error (PyErr.keyError "MINUTES")
    | some minutesEnv =>
      match firstDigitRun minutesEnv with
      | none => Except.error PyErr.attributeError
      | some minutes =>
        match inDatetimeRange (query_end_datetime - 60 * (digitsToNat minutes.data : Int)) with
        | false => Except.error PyErr.overflowError
        | true =>
          match env.JOB_TYPE with
          | none => Except.error (PyErr.keyError "JOB_TYPE")
          | some job_type =>
            match env.JOB_RELEASE with
            | none => Except.error (PyErr.keyError "JOB_RELEASE")
            | some job_release =>
              match env.JOB_QUEUE with
              | none => Except.error (PyErr.keyError "JOB_QUEUE")
              | some queue =>
                match env.ENDPOINT with
                | none => Except.error (PyErr.keyError "ENDPOINT")
                | some endpoint =>
                  match env.DOWNLOAD_JOB_QUEUE with
                  | none => Except.error (PyErr.keyError "DOWNLOAD_JOB_QUEUE")
                  | some download_job_queue =>
                    match env.CHUNK_SIZE with
                    | none => Except.error (PyErr.keyError "CHUNK_SIZE")
                    | some chunk_size =>
                      match env.SMOKE_RUN with
                      | none => Except.error (PyErr.keyError "SMOKE_RUN")
                      | some smoke_s =>
                        match strtobool smoke_s with
                        | none => Except.error (PyErr.valueError "invalid truth value")
                        | some smoke_run =>
                          match env.DRY_RUN with
                          | none => Except.error (PyErr.keyError "DRY_RUN")
                          | some dry_s =>
                            match strtobool dry_s with
                            | none => Except.error (PyErr.valueError "invalid truth value")
                            | some dry_run =>
                              match env.NO_SCHEDULE_DOWNLOAD with
                              | none => Except.error (PyErr.keyError "NO_SCHEDULE_DOWNLOAD")
                              | some nosched_s =>
                                match strtobool nosched_s with
                                | none => Except.error (PyErr.valueError "invalid truth value")
                                | some no_schedule_download =>
                                  match env.USE_TEMPORAL with
                                  | none => Except.error (PyErr.keyError "USE_TEMPORAL")
                                  | some temporal_s =>
                                    match strtobool temporal_s with
                                    | none => Except.error (PyErr.valueError "invalid truth value")
                                    | some use_temporal =>
                                      Except.ok (mk_job_request env now query_end_datetime
                                        minutes job_type job_release queue endpoint
                                        download_job_queue chunk_size smoke_run dry_run
                                        no_schedule_download use_temporal)

/-! ## The submitter -/

/-- Lowercase hex digit. -/
def hexDigit (n : Nat) : Char :=
  if n < 10 then Char.ofNat (48 + n) else Char.ofNat (87 + n)

/-- Four lowercase hex digits, as in a JSON `\uXXXX` escape. -/
def hex4 (n : Nat) : String :=
  String.mk [hexDigit (n / 4096 % 16), hexDigit (n / 256 % 16), hexDigit (n / 16 % 16),
    hexDigit (n % 16)]

/-- One character of `json.dumps` output (default `ensure_ascii=True`):
short escapes for the two-character sequences, `\uXXXX` for other control
characters and for everything above `~` (with surrogate pairs beyond the
BMP), the character itself otherwise. -/
def jsonEscapeChar (c : Char) : String :=
  if c = '"' then "\\\""
  else if c = '\\' then "\\\\"
  else if c = '\n' then "\\n"
  else if c = '\x0d' then "\\r"
  else if c = '\t' then "\\t"
  else if c.toNat = 8 then "\\b"
  else if c.toNat = 12 then "\\f"
  else if c.toNat < 32 || c.toNat > 126 then
    if c.toNat ≤ 65535 then "\\u" ++ hex4 c.toNat
    else
      let v := c.toNat - 65536
      "\\u" ++ hex4 (55296 + v / 1024) ++ "\\u" ++ hex4 (56320 + v % 1024)
  else String.singleton c

/-- `json.dumps` of a string. -/
def jsonStr (s : String) : String :=
  "\"" ++ String.join (s.data.map jsonEscapeChar) ++ "\""

/-- `json.dumps` of a list of strings (default separators). -/
def jsonDumpsList (xs : List String) : String :=
  "[" ++ String.intercalate ", " (xs.map jsonStr) ++ "]"

/-- `json.dumps` of a string-to-string dict (default separators, insertion
order preserved). -/
def jsonDumpsDict (kvs : List (String × String)) : String :=
  "\x7b" ++ String.intercalate ", " (kvs.map (fun p => jsonStr p.1 ++ ": " ++ jsonStr p.2)) ++ "\x7d"

/-- The form-encoded body of `submit_job`'s POST: the `params` dict of the
source, with `tags` and `params` JSON-serialized and `priority`
stringified by the form encoding. -/
def submit_job_form (r : JobRequest) : List (String × String) :=
  [("queue", r.queue),
   ("priority", toString r.priority),
   ("tags", jsonDumpsList r.tags),
   ("type", r.job_spec),
   ("params", jsonDumpsDict r.job_params),
   ("name", r.job_name)]

/-- `requests.Response.raise_for_status`: raises `HTTPError` exactly for
4xx and 5xx status codes. -/
def raise_for_status (status : Nat) : Except PyErr Unit :=
  if 400 ≤ status ∧ status < 600 then Except.error (PyErr.httpError status)
  else Except.ok ()

/-- Lookup in a JSON object; later duplicates win, as in `json.loads`. -/
def jlookup (kvs : List (String × JVal)) (k : String) : Option JVal :=
  kvs.reverse.lookup k

/-- The part of `submit_job` after the POST: `raise_for_status`, then
`req.json()`, then the `result`/`success` interpretation.  A non-dict JSON
body has no `.keys()`, hence the `AttributeError` arm. -/
def submit_job_response (resp : HttpResponse) : Except PyErr JVal :=
  match raise_for_status resp.status with
  | Except.error e => Except.error e
  | Except.ok _ =>
    match resp.body with
    | none => Except.error (PyErr.valueError "Expecting value")
    | some result =>
      match result with
      | JVal.jobj kvs =>
        match jlookup kvs "result", jlookup kvs "success" with
        | some job_id, some success =>
          match success with
          | JVal.jbool true => Except.ok job_id
          | _ => Except.error (PyErr.submissionError result)
        | some _, none => Except.error (PyErr.submissionError result)
        | none, _ => Except.error (PyErr.submissionError result)
      | _ => Except.error PyErr.attributeError

/-- One whole invocation.  `http` is the external job service: it maps the
POSTed request to an HTTP response.  The second component is the list of
requests actually sent over the network, so that "fails before any network
call" is a statement about the result. -/
def lambda_handler (env : Env) (event : Event) (now : Int)
    (http : JobRequest → HttpResponse) : Except PyErr JVal × List JobRequest :=
  match build_job_submission env event now with
  | Except.error e => (Except.error e, [])
  | Except.ok req => (submit_job_response (http req), [req])

/-! ## Error-class predicates (for the abort-before-network property) -/

/-- Some required environment variable (one the handler reads with
`os.environ[...]`) is missing. -/
def requiredMissing (env : Env) : Bool :=
  env.MINUTES.isNone || env.ENDPOINT.isNone || env.JOB_TYPE.isNone ||
  env.JOB_RELEASE.isNone || env.JOB_QUEUE.isNone || env.DOWNLOAD_JOB_QUEUE.isNone ||
  env.CHUNK_SIZE.isNone || env.SMOKE_RUN.isNone || env.DRY_RUN.isNone ||
  env.NO_SCHEDULE_DOWNLOAD.isNone || env.USE_TEMPORAL.isNone

/-- A present variable whose value `strtobool` rejects. -/
def badBool : Option String → Bool
  | some s => (strtobool s).isNone
  | none => false

/-- Some boolean configuration variable is present but malformed. -/
def hasMalformedBool (env : Env) : Bool :=
  badBool env.SMOKE_RUN || badBool env.DRY_RUN ||
  badBool env.NO_SCHEDULE_DOWNLOAD || badBool env.USE_TEMPORAL

/-! ## Concrete sample configuration and event (used by witnesses) -/

/-- A fully populated, well-formed environment. -/
def env0 : Env :=
  { MINUTES := some "5",
    ENDPOINT := some "OPS",
    JOB_TYPE := some "data-subscriber-query",
    JOB_RELEASE := some "release-1.0.0",
    JOB_QUEUE := some "factotum-job_worker-small",
    DOWNLOAD_JOB_QUEUE := some "factotum-job_worker-large",
    CHUNK_SIZE := some "1",
    SMOKE_RUN := some "true",
    DRY_RUN := some "false",
    NO_SCHEDULE_DOWNLOAD := some "yes",
    USE_TEMPORAL := some "off",
    BOUNDING_BOX := some "-124,32,-113,42",
    TEMPORAL_START_DATETIME_MARGIN_DAYS := some "30",
    TEMPORAL_START_DATETIME := some "" }

/-- The spec's example trigger event. -/
def ev0 : Event := { time := "2024-01-01T00:10:00Z" }

/-- `env0` with the window length removed (a missing required setting). -/
def envMissing : Env := { env0 with MINUTES := none }

/-- `env0` with a margin that `int()` accepts but whose subtraction from
any 2024 instant leaves the `datetime` range, and a recognizable fallback
literal. -/
def envMargin : Env :=
  { env0 with
    TEMPORAL_START_DATETIME_MARGIN_DAYS := some "999999999",
    TEMPORAL_START_DATETIME := some "FALLBACK" }

/-! ## Helper lemmas -/

/-- The head of `dropWhile p l`, when it exists, does not satisfy `p`. -/
theorem dropWhile_head_not (p : Char → Bool) (l : List Char) :
    ∀ c, (l.dropWhile p).head? = some c → p c = false := by
  induction l with
  | nil => intro c h; simp [List.dropWhile] at h
  | cons a l ih =>
    intro c h
    by_cases ha : p a
    · rw [List.dropWhile_cons_of_pos ha] at h
      exact ih c h
    · rw [List.dropWhile_cons_of_neg ha] at h
      simp at h
      rw [← h]
      exact Bool.eq_false_iff.mpr ha

/-- `firstRunAux` returns the first maximal run of digit characters: what
precedes it holds no digit, it is a nonempty all-digit run, and the
character right after it (if any) is not a digit. -/
theorem firstRunAux_spec (cs : List Char) :
    ∀ r, firstRunAux cs = some r →
      ∃ pre post, cs = pre ++ r ++ post ∧
        (∀ c ∈ pre, c.isDigit = false) ∧ r ≠ [] ∧ (∀ c ∈ r, c.isDigit = true) ∧
        (∀ c, post.head? = some c → c.isDigit = false) := by
  induction cs with
  | nil => intro r h; simp [firstRunAux] at h
  | cons c cs ih =>
    intro r h
    unfold firstRunAux at h
    by_cases hc : c.isDigit
    · rw [if_pos hc] at h
      injection h with h
      refine ⟨[], cs.dropWhile (fun x => x.isDigit), ?_, ?_, ?_, ?_, ?_⟩
      · rw [← h]; simp [List.takeWhile_append_dropWhile]
      · intro x hx; simp at hx
      · rw [← h]; simp
      · intro x hx
        rw [← h] at hx
        rcases List.mem_cons.mp hx with hx | hx
        · rw [hx]; exact hc
        · exact List.mem_takeWhile_imp hx
      · exact dropWhile_head_not _ cs
    · rw [if_neg hc] at h
      obtain ⟨pre, post, hsplit, hpre, hr, hdig, hpost⟩ := ih r h
      refine ⟨c :: pre, post, ?_, ?_, hr, hdig, hpost⟩
      · simp [hsplit]
      · intro x hx
        rcases List.mem_cons.mp hx with hx | hx
        · rw [hx]; exact Bool.eq_false_iff.mpr hc
        · exact hpre x hx

/-- A character list with no digit has no digit run. -/
theorem firstRunAux_none_of_no_digit (cs : List Char)
    (h : ∀ c ∈ cs, c.isDigit = false) : firstRunAux cs = none := by
  induction cs with
  | nil => rfl
  | cons c cs ih =>
    unfold firstRunAux
    rw [if_neg]
    · exact ih (fun x hx => h x (List.mem_cons_of_mem c hx))
    · exact Bool.eq_false_iff.mp (h c (List.mem_cons_self c cs))

/-- Inversion of a successful `build_job_submission`: every fallible step
succeeded, and the result is exactly the assembled `JobRequest`. -/
theorem build_ok_inversion (env : Env) (event : Event) (now : Int) (req : JobRequest)
    (h : build_job_submission env event now = Except.ok req) :
    ∃ t ms mstr job_type job_release queue endpoint download_job_queue chunk_size
      s1 s2 s3 s4 b1 b2 b3 b4,
      isoparse event.time = some t ∧
      env.MINUTES = some ms ∧
      firstDigitRun ms = some mstr ∧
      inDatetimeRange (t - 60 * (digitsToNat mstr.data : Int)) = true ∧
      env.JOB_TYPE = some job_type ∧
      env.JOB_RELEASE = some job_release ∧
      env.JOB_QUEUE = some queue ∧
      env.ENDPOINT = some endpoint ∧
      env.DOWNLOAD_JOB_QUEUE = some download_job_queue ∧
      env.CHUNK_SIZE = some chunk_size ∧
      env.SMOKE_RUN = some s1 ∧ strtobool s1 = some b1 ∧
      env.DRY_RUN = some s2 ∧ strtobool s2 = some b2 ∧
      env.NO_SCHEDULE_DOWNLOAD = some s3 ∧ strtobool s3 = some b3 ∧
      env.USE_TEMPORAL = some s4 ∧ strtobool s4 = some b4 ∧
      req = mk_job_request env now t mstr job_type job_release queue endpoint
        download_job_queue chunk_size b1 b2 b3 b4 := by
  unfold build_job_submission at h
  repeat' split at h
  all_goals try exact Except.noConfusion h
  injection h with h
  subst h
  repeat' apply Exists.intro
  repeat' apply And.intro
  all_goals first
    | assumption
    | rfl

/-! ## The claims -/

/-- C1: for an invocation whose trigger event carries a parseable time
(epoch seconds `t`) and whose `MINUTES` variable yields the digit run
`mstr`, the emitted `start_datetime` parameter is the window end minus
`digitsToNat mstr.data` minutes and the `end_datetime` parameter is the
window end itself, both rendered through `fmt_datetime`
(`%Y-%m-%dT%H:%M:%SZ`). -/
theorem query_window_start_end (env : Env) (event : Event) (now : Int) (req : JobRequest)
    (t : Int) (ms mstr : String)
    (ht : isoparse event.time = some t)
    (hm : env.MINUTES = some ms)
    (hrun : firstDigitRun ms = some mstr)
    (hok : build_job_submission env event now = Except.ok req) :
    req.job_params.lookup "start_datetime" =
      some ("--start-date=" ++ fmt_datetime (t - 60 * (digitsToNat mstr.data : Int))) ∧
    req.job_params.lookup "end_datetime" = some ("--end-date=" ++ fmt_datetime t) := by
  obtain ⟨t', ms', mstr', jt, jr, q, ep, dq, cs, s1, s2, s3, s4, b1, b2, b3, b4,
    h1, h2, h3, _, _, _, _, _, _, _, _, _, _, _, _, _, _, _, hreq⟩ :=
    build_ok_inversion env event now req hok
  rw [ht] at h1; injection h1 with h1
  rw [hm] at h2; injection h2 with h2
  rw [← h2, hrun] at h3; injection h3 with h3
  subst h1; subst h3; subst hreq
  exact ⟨rfl, rfl⟩

/-- Witness for C1 at the spec's example: event time
2024-01-01T00:10:00Z and a 5-minute window give a start bound of
2024-01-01T00:05:00Z. -/
theorem query_window_start_end_witness :
    ∃ req, build_job_submission env0 ev0 0 = Except.ok req ∧
      req.job_params.lookup "start_datetime" = some "--start-date=2024-01-01T00:05:00Z" ∧
      req.job_params.lookup "end_datetime" = some "--end-date=2024-01-01T00:10:00Z" := by
  refine ⟨_, rfl, ?_, ?_⟩
  · exact (query_window_start_end env0 ev0 0 _ 1704067800 "5" "5"
      (by decide) rfl (by decide) rfl).1.trans (by decide)
  · exact (query_window_start_end env0 ev0 0 _ 1704067800 "5" "5"
      (by decide) rfl (by decide) rfl).2.trans (by decide)

/-- C2 counterexample: `TEMPORAL_START_DATETIME_MARGIN_DAYS=999999999`
parses as an integer, yet `get_temporal_start_datetime` does not return
`query_end - d` days (the subtraction leaves the `datetime` range, the
`OverflowError` is swallowed by the same `try`, and the literal fallback
is used instead). -/
theorem temporal_margin_overflow_counterexample :
    pyInt (envMargin.TEMPORAL_START_DATETIME_MARGIN_DAYS.getD "") = some 999999999 ∧
    get_temporal_start_datetime envMargin 1704067800 = "FALLBACK" ∧
    "FALLBACK" ≠ fmt_datetime (1704067800 - 999999999 * 86400) := by
  exact ⟨by decide, by decide, by decide⟩

/-- C2 (amended): if the margin parses as an integer `d` and
`query_end - d` days is representable as a Python `datetime` (years 1 to
9999), `temporal_start` is `query_end - d` days rendered through
`fmt_datetime`; if the subtraction overflows, or the margin is absent or
unparseable, `temporal_start` is the literal `TEMPORAL_START_DATETIME`
(default the empty string).  The function is total: the fallback is
non-fatal. -/
theorem temporal_start_margin_fallback (env : Env) (qe : Int) :
    (∀ d : Int, pyInt (env.TEMPORAL_START_DATETIME_MARGIN_DAYS.getD "") = some d →
      inDatetimeRange (qe - d * 86400) = true →
      get_temporal_start_datetime env qe = fmt_datetime (qe - d * 86400)) ∧
    (∀ d : Int, pyInt (env.TEMPORAL_START_DATETIME_MARGIN_DAYS.getD "") = some d →
      inDatetimeRange (qe - d * 86400) = false →
      get_temporal_start_datetime env qe = env.TEMPORAL_START_DATETIME.getD "") ∧
    (pyInt (env.TEMPORAL_START_DATETIME_MARGIN_DAYS.getD "") = none →
      get_temporal_start_datetime env qe = env.TEMPORAL_START_DATETIME.getD "") := by
  refine ⟨?_, ?_, ?_⟩
  · intro d hd hr
    simp [get_temporal_start_datetime, hd, hr]
  · intro d hd hr
    simp [get_temporal_start_datetime, hd, hr]
  · intro hd
    simp [get_temporal_start_datetime, hd]

/-- Witness for the amended C2: a 30-day margin before
2024-01-01T00:10:00Z gives 2023-12-02T00:10:00Z, and an unparseable
margin falls back to the configured literal. -/
theorem temporal_start_margin_fallback_witness :
    get_temporal_start_datetime env0 1704067800 = "2023-12-02T00:10:00Z" ∧
    get_temporal_start_datetime envMargin 1704067800 = "FALLBACK" := by
  constructor
  · exact ((temporal_start_margin_fallback env0 1704067800).1 30
      (by decide) (by decide)).trans (by decide)
  · exact ((temporal_start_margin_fallback envMargin 1704067800).2.1 999999999
      (by decide) (by decide)).trans (by decide)

/-- C3: for a 2xx/3xx response whose JSON body is an object, `submit_job`
returns the value of `result` when both `result` and `success` are
present and `success` is exactly `true`; with either key missing, or
`success` anything other than `true`, it raises the submission error
carrying the response body. -/
theorem submit_success_result_semantics (resp : HttpResponse) (kvs : List (String × JVal))
    (hs1 : 200 ≤ resp.status) (hs2 : resp.status < 400)
    (hb : resp.body = some (JVal.jobj kvs)) :
    (∀ rv, jlookup kvs "result" = some rv → jlookup kvs "success" = some (JVal.jbool true) →
      submit_job_response resp = Except.ok rv) ∧
    ((jlookup kvs "result" = none ∨ jlookup kvs "success" = none ∨
        (∃ sv, jlookup kvs "success" = some sv ∧ sv ≠ JVal.jbool true)) →
      submit_job_response resp = Except.error (PyErr.submissionError (JVal.jobj kvs))) := by
  have hrf : raise_for_status resp.status = Except.ok () := by
    unfold raise_for_status
    exact if_neg (by omega)
  constructor
  · intro rv h1 h2
    simp [submit_job_response, hrf, hb, h1, h2]
  · intro hcase
    rcases hcase with h1 | h1 | ⟨sv, h1, hne⟩
    · simp [submit_job_response, hrf, hb, h1]
    · rcases hres : jlookup kvs "result" with _ | rv
      · simp [submit_job_response, hrf, hb, h1, hres]
      · simp [submit_job_response, hrf, hb, h1, hres]
    · rcases hres : jlookup kvs "result" with _ | rv
      · simp [submit_job_response, hrf, hb, h1, hres]
      · simp only [submit_job_response, hrf, hb, h1, hres]

/-- Witness for C3: the spec's mocked examples.  A 200 response of
success `false` with a message fails with the submission error carrying
the body (whose `message` is the raw "bad params"), and a 200 response of
success `true` returns the `result` value. -/
theorem submit_success_result_semantics_witness :
    submit_job_response
        ⟨200, some (JVal.jobj [("success", JVal.jbool false), ("message", JVal.jstr "bad params")])⟩ =
      Except.error (PyErr.submissionError
        (JVal.jobj [("success", JVal.jbool false), ("message", JVal.jstr "bad params")])) ∧
    jlookup [("success", JVal.jbool false), ("message", JVal.jstr "bad params")] "message" =
      some (JVal.jstr "bad params") ∧
    submit_job_response
        ⟨200, some (JVal.jobj [("success", JVal.jbool true), ("result", JVal.jstr "job-123")])⟩ =
      Except.ok (JVal.jstr "job-123") := by
  refine ⟨?_, rfl, ?_⟩
  · exact (submit_success_result_semantics ⟨200, _⟩ _ (by decide) (by decide) rfl).2 (Or.inl rfl)
  · exact (submit_success_result_semantics ⟨200, _⟩ _ (by decide) (by decide) rfl).1 _ rfl rfl

/-- C4 counterexample: HTTP 100 is not a 2xx/3xx status, yet
`raise_for_status` lets it through (it raises only for 4xx/5xx), so with
a well-formed success body the invocation returns a job identifier
instead of failing with a transport error. -/
theorem transport_error_informational_counterexample :
    ¬(200 ≤ 100 ∧ 100 < 400) ∧
    submit_job_response
        ⟨100, some (JVal.jobj [("success", JVal.jbool true), ("result", JVal.jstr "job-1")])⟩ =
      Except.ok (JVal.jstr "job-1") := by
  exact ⟨by omega, rfl⟩

/-- C4 (amended): for every response with a 4xx or 5xx status — the
statuses `raise_for_status` treats as errors — the invocation fails with
the propagated transport error and no job identifier is returned. -/
theorem transport_error_on_4xx_5xx (resp : HttpResponse)
    (h4 : 400 ≤ resp.status) (h6 : resp.status < 600) :
    submit_job_response resp = Except.error (PyErr.httpError resp.status) ∧
    ∀ v, submit_job_response resp ≠ Except.ok v := by
  have hrf : raise_for_status resp.status = Except.error (PyErr.httpError resp.status) := by
    unfold raise_for_status
    rw [if_pos ⟨h4, h6⟩]
  constructor
  · unfold submit_job_response
    rw [hrf]
  · intro v h
    unfold submit_job_response at h
    rw [hrf] at h
    exact Except.noConfusion h

/-- Witness for the amended C4: the spec's mocked HTTP 500. -/
theorem transport_error_on_4xx_5xx_witness :
    submit_job_response ⟨500, some (JVal.jobj [("success", JVal.jbool true)])⟩ =
      Except.error (PyErr.httpError 500) ∧
    ∀ v, submit_job_response ⟨500, some (JVal.jobj [("success", JVal.jbool true)])⟩ ≠
      Except.ok v := by
  exact transport_error_on_4xx_5xx ⟨500, some (JVal.jobj [("success", JVal.jbool true)])⟩
    (by decide) (by decide)

/-- C5: on a successful invocation each of the four flag parameters holds
the flag token iff `strtobool` accepts its configured string as true and
the empty string otherwise; and a present boolean variable that
`strtobool` rejects makes `build_job_submission` fail, so no invocation
succeeds with a malformed boolean. -/
theorem boolean_flag_tokens (env : Env) (event : Event) (now : Int) (req : JobRequest)
    (hok : build_job_submission env event now = Except.ok req) :
    (∀ s, env.SMOKE_RUN = some s → ∃ b, strtobool s = some b ∧
      req.job_params.lookup "smoke_run" = some (if b then "--smoke-run" else "")) ∧
    (∀ s, env.DRY_RUN = some s → ∃ b, strtobool s = some b ∧
      req.job_params.lookup "dry_run" = some (if b then "--dry-run" else "")) ∧
    (∀ s, env.NO_SCHEDULE_DOWNLOAD = some s → ∃ b, strtobool s = some b ∧
      req.job_params.lookup "no_schedule_download" =
        some (if b then "--no-schedule-download" else "")) ∧
    (∀ s, env.USE_TEMPORAL = some s → ∃ b, strtobool s = some b ∧
      req.job_params.lookup "use_temporal" = some (if b then "--use-temporal" else "")) ∧
    (∀ (env' : Env) (event' : Event) (now' : Int) (s : String),
      (env'.SMOKE_RUN = some s ∨ env'.DRY_RUN = some s ∨
        env'.NO_SCHEDULE_DOWNLOAD = some s ∨ env'.USE_TEMPORAL = some s) →
      strtobool s = none →
      ∀ req', build_job_submission env' event' now' ≠ Except.ok req') := by
  obtain ⟨t, ms, mstr, jt, jr, q, ep, dq, cs, s1, s2, s3, s4, b1, b2, b3, b4,
    _, _, _, _, _, _, _, _, _, _, h11, h12, h13, h14, h15, h16, h17, h18, hreq⟩ :=
    build_ok_inversion env event now req hok
  subst hreq
  refine ⟨?_, ?_, ?_, ?_, ?_⟩
  · intro s hs
    rw [hs] at h11; injection h11 with h11; subst h11
    exact ⟨b1, h12, rfl⟩
  · intro s hs
    rw [hs] at h13; injection h13 with h13; subst h13
    exact ⟨b2, h14, rfl⟩
  · intro s hs
    rw [hs] at h15; injection h15 with h15; subst h15
    exact ⟨b3, h16, rfl⟩
  · intro s hs
    rw [hs] at h17; injection h17 with h17; subst h17
    exact ⟨b4, h18, rfl⟩
  · intro env' event' now' s hwhich hnone req' hok'
    obtain ⟨_, _, _, _, _, _, _, _, _, _, _, _, _, _, _, _, _,
      _, _, _, _, _, _, _, _, _, _, g11, g12, g13, g14, g15, g16, g17, g18, _⟩ :=
      build_ok_inversion env' event' now' req' hok'
    rcases hwhich with h | h | h | h
    · rw [h] at g11; injection g11 with g11; subst g11
      rw [hnone] at g12; exact Option.noConfusion g12
    · rw [h] at g13; injection g13 with g13; subst g13
      rw [hnone] at g14; exact Option.noConfusion g14
    · rw [h] at g15; injection g15 with g15; subst g15
      rw [hnone] at g16; exact Option.noConfusion g16
    · rw [h] at g17; injection g17 with g17; subst g17
      rw [hnone] at g18; exact Option.noConfusion g18

/-- Witness for C5 at `env0` (`SMOKE_RUN=true`, `DRY_RUN=false`,
`NO_SCHEDULE_DOWNLOAD=yes`, `USE_TEMPORAL=off`), plus the malformed case:
no invocation succeeds once `SMOKE_RUN=maybe`. -/
theorem boolean_flag_tokens_witness :
    ∃ req, build_job_submission env0 ev0 0 = Except.ok req ∧
      req.job_params.lookup "smoke_run" = some "--smoke-run" ∧
      req.job_params.lookup "dry_run" = some "" ∧
      req.job_params.lookup "no_schedule_download" = some "--no-schedule-download" ∧
      req.job_params.lookup "use_temporal" = some "" ∧
      ∀ req', build_job_submission { env0 with SMOKE_RUN := some "maybe" } ev0 0 ≠
        Except.ok req' := by
  refine ⟨_, rfl, ?_, ?_, ?_, ?_, ?_⟩
  · obtain ⟨b, hb, hl⟩ := (boolean_flag_tokens env0 ev0 0 _ rfl).1 "true" rfl
    rw [show strtobool "true" = some true from by decide] at hb
    injection hb with hb
    subst hb
    exact hl
  · obtain ⟨b, hb, hl⟩ := (boolean_flag_tokens env0 ev0 0 _ rfl).2.1 "false" rfl
    rw [show strtobool "false" = some false from by decide] at hb
    injection hb with hb
    subst hb
    exact hl
  · obtain ⟨b, hb, hl⟩ := (boolean_flag_tokens env0 ev0 0 _ rfl).2.2.1 "yes" rfl
    rw [show strtobool "yes" = some true from by decide] at hb
    injection hb with hb
    subst hb
    exact hl
  · obtain ⟨b, hb, hl⟩ := (boolean_flag_tokens env0 ev0 0 _ rfl).2.2.2.1 "off" rfl
    rw [show strtobool "off" = some false from by decide] at hb
    injection hb with hb
    subst hb
    exact hl
  · exact (boolean_flag_tokens env0 ev0 0 _ rfl).2.2.2.2
      { env0 with SMOKE_RUN := some "maybe" } ev0 0 "maybe" (Or.inl rfl) (by decide)

/-- The `bounding_box` entry of the assembled parameter dict, extracted
(helper for the bounding-box claims). -/
theorem lookup_bounding_box (env : Env) (now t : Int) (mstr jt jr q ep dq cs : String)
    (b1 b2 b3 b4 : Bool) :
    (mk_job_request env now t mstr jt jr q ep dq cs b1 b2 b3 b4).job_params.lookup
        "bounding_box" =
      some (match env.BOUNDING_BOX with
        | some b => if b = "" then "" else "--bounds=" ++ b
        | none => "") := rfl

/-- C6: on a successful invocation the `bounding_box` parameter is
`--bounds=<value>` iff `BOUNDING_BOX` is set and non-empty, and the empty
string when the variable is unset or empty. -/
theorem bounding_box_token (env : Env) (event : Event) (now : Int) (req : JobRequest)
    (hok : build_job_submission env event now = Except.ok req) :
    (env.BOUNDING_BOX = none → req.job_params.lookup "bounding_box" = some "") ∧
    (env.BOUNDING_BOX = some "" → req.job_params.lookup "bounding_box" = some "") ∧
    (∀ b, env.BOUNDING_BOX = some b → b ≠ "" →
      req.job_params.lookup "bounding_box" = some ("--bounds=" ++ b)) := by
  obtain ⟨t, ms, mstr, jt, jr, q, ep, dq, cs, s1, s2, s3, s4, b1, b2, b3, b4,
    _, _, _, _, _, _, _, _, _, _, _, _, _, _, _, _, _, _, hreq⟩ :=
    build_ok_inversion env event now req hok
  subst hreq
  refine ⟨?_, ?_, ?_⟩
  · intro h
    rw [lookup_bounding_box, h]
  · intro h
    rw [lookup_bounding_box, h]
    rfl
  · intro b h hb
    rw [lookup_bounding_box, h]
    simp [hb]

/-- Witness for C6: `env0` carries a non-empty bounding box and its token
is emitted; with the variable removed the parameter is empty. -/
theorem bounding_box_token_witness :
    (∃ req, build_job_submission env0 ev0 0 = Except.ok req ∧
      req.job_params.lookup "bounding_box" = some "--bounds=-124,32,-113,42") ∧
    (∃ req, build_job_submission { env0 with BOUNDING_BOX := none } ev0 0 = Except.ok req ∧
      req.job_params.lookup "bounding_box" = some "") := by
  constructor
  · refine ⟨_, rfl, ?_⟩
    exact (bounding_box_token env0 ev0 0 _ rfl).2.2 "-124,32,-113,42" rfl (by decide)
  · refine ⟨_, rfl, ?_⟩
    exact (bounding_box_token { env0 with BOUNDING_BOX := none } ev0 0 _ rfl).1 rfl

/-- C7: `submit_job` POSTs a form with exactly the keys `queue`,
`priority`, `tags`, `type`, `params`, `name` in this order, where `tags`
and `params` are the JSON serializations of the tag list and the
parameter dict, and the handler-built request keeps `submit_job`'s
default priority 0. -/
theorem outbound_form_contract (r : JobRequest) :
    (submit_job_form r).map Prod.fst = ["queue", "priority", "tags", "type", "params", "name"] ∧
    (submit_job_form r).lookup "tags" = some (jsonDumpsList r.tags) ∧
    (submit_job_form r).lookup "params" = some (jsonDumpsDict r.job_params) ∧
    (submit_job_form r).lookup "priority" = some (toString r.priority) ∧
    (∀ env event now req, build_job_submission env event now = Except.ok req →
      req.priority = 0) := by
  refine ⟨rfl, rfl, rfl, rfl, ?_⟩
  intro env event now req hok
  obtain ⟨_, _, _, _, _, _, _, _, _, _, _, _, _, _, _, _, _,
    _, _, _, _, _, _, _, _, _, _, _, _, _, _, _, _, _, _, hreq⟩ :=
    build_ok_inversion env event now req hok
  subst hreq
  rfl

/-- Witness for C7: a concrete form body, with its JSON-encoded `tags`
and `params` fields spelled out, and the handler-built request's
priority. -/
theorem outbound_form_contract_witness :
    submit_job_form
        ⟨"job-A", "job-data-subscriber-query:release-1.0.0", [("start_datetime", "--start-date=2024-01-01T00:05:00Z")],
          "factotum-job_worker-small", ["data-subscriber-query-timer"], 0⟩ =
      [("queue", "factotum-job_worker-small"),
       ("priority", "0"),
       ("tags", "[\"data-subscriber-query-timer\"]"),
       ("type", "job-data-subscriber-query:release-1.0.0"),
       ("params", "\x7b\"start_datetime\": \"--start-date=2024-01-01T00:05:00Z\"\x7d"),
       ("name", "job-A")] ∧
    (∃ req, build_job_submission env0 ev0 0 = Except.ok req ∧ req.priority = 0) := by
  refine ⟨by decide, _, rfl, ?_⟩
  exact (outbound_form_contract ⟨"", "", [], "", [], 0⟩).2.2.2.2 env0 ev0 0 _ rfl

/-- C8: a missing required variable, a malformed boolean, or an
unparseable trigger timestamp makes the invocation fail before the POST:
the handler sends no request at all and surfaces an error. -/
theorem errors_abort_before_network (env : Env) (event : Event) (now : Int)
    (http : JobRequest → HttpResponse)
    (h : (requiredMissing env || hasMalformedBool env || (isoparse event.time).isNone) = true) :
    (lambda_handler env event now http).2 = [] ∧
    ∃ e, (lambda_handler env event now http).1 = Except.error e := by
  rcases hbuild : build_job_submission env event now with e | req
  · unfold lambda_handler
    rw [hbuild]
    exact ⟨rfl, e, rfl⟩
  · exfalso
    obtain ⟨t, ms, mstr, jt, jr, q, ep, dq, cs, s1, s2, s3, s4, b1, b2, b3, b4,
      h1, h2, _, _, h5, h6, h7, h8, h9, h10, h11, h12, h13, h14, h15, h16, h17, h18, _⟩ :=
      build_ok_inversion env event now req hbuild
    simp [requiredMissing, hasMalformedBool, badBool, h1, h2, h5, h6, h7, h8, h9, h10,
      h11, h12, h13, h14, h15, h16, h17, h18] at h

/-- Witness for C8: with `MINUTES` removed the handler sends nothing and
errors, whatever the job service would have answered. -/
theorem errors_abort_before_network_witness :
    (lambda_handler envMissing ev0 0 (fun _ => ⟨200, none⟩)).2 = [] ∧
    ∃ e, (lambda_handler envMissing ev0 0 (fun _ => ⟨200, none⟩)).1 = Except.error e := by
  exact errors_abort_before_network envMissing ev0 0 (fun _ => ⟨200, none⟩) (by decide)

/-- C9: the window length comes from the first maximal run of decimal
digits of `MINUTES` (text around it and any minus sign are ignored:
"15min" yields 15 and "-5" yields 5), and a `MINUTES` value with no digit
at all aborts the invocation before any request is sent. -/
theorem minutes_digit_run_extraction :
    (∀ (s r : String), firstDigitRun s = some r →
      ∃ pre post, s.data = pre ++ r.data ++ post ∧
        (∀ c ∈ pre, c.isDigit = false) ∧ r.data ≠ [] ∧ (∀ c ∈ r.data, c.isDigit = true) ∧
        (∀ c, post.head? = some c → c.isDigit = false)) ∧
    (firstDigitRun "15min").map (fun r => digitsToNat r.data) = some 15 ∧
    (firstDigitRun "-5").map (fun r => digitsToNat r.data) = some 5 ∧
    (∀ (env : Env) (event : Event) (now : Int) (ms : String), env.MINUTES = some ms →
      (∀ c ∈ ms.data, c.isDigit = false) →
      ∀ http, (lambda_handler env event now http).2 = [] ∧
        ∃ e, (lambda_handler env event now http).1 = Except.error e) := by
  refine ⟨?_, by decide, by decide, ?_⟩
  · intro s r h
    unfold firstDigitRun at h
    rcases haux : firstRunAux s.data with _ | run
    · rw [haux] at h
      exact Option.noConfusion h
    · rw [haux] at h
      injection h with h
      subst h
      exact firstRunAux_spec s.data run haux
  · intro env event now ms hm hnd http
    have hrun : firstDigitRun ms = none := by
      unfold firstDigitRun
      rw [firstRunAux_none_of_no_digit ms.data hnd]
      rfl
    have hbuild : ∃ e, build_job_submission env event now = Except.error e := by
      unfold build_job_submission
      cases hiso : isoparse event.time with
      | none => exact ⟨_, rfl⟩
      | some t =>
        simp only [hm, hrun]
        exact ⟨_, rfl⟩
    obtain ⟨e, he⟩ := hbuild
    unfold lambda_handler
    rw [he]
    exact ⟨rfl, e, rfl⟩

/-- Witness for C9: a `MINUTES` of "h" (no digit) aborts with nothing
sent; the digit-run examples are closed conjuncts of the theorem
itself. -/
theorem minutes_digit_run_extraction_witness :
    (firstDigitRun "15min").map (fun r => digitsToNat r.data) = some 15 ∧
    (lambda_handler { env0 with MINUTES := some "h" } ev0 0 (fun _ => ⟨200, none⟩)).2 = [] ∧
    ∃ e, (lambda_handler { env0 with MINUTES := some "h" } ev0 0 (fun _ => ⟨200, none⟩)).1 =
      Except.error e := by
  refine ⟨minutes_digit_run_extraction.2.1, ?_⟩
  exact minutes_digit_run_extraction.2.2.2 { env0 with MINUTES := some "h" } ev0 0 "h" rfl
    (by decide) (fun _ => ⟨200, none⟩)

/-- C10: every successfully computed invocation emits exactly the same 12
parameter keys in the same order; a disabled temporal flag and an absent
bounding box are empty-string values under their keys, never omitted
keys. -/
theorem job_params_fixed_keys (env : Env) (event : Event) (now : Int) (req : JobRequest)
    (hok : build_job_submission env event now = Except.ok req) :
    req.job_params.map Prod.fst =
      ["start_datetime", "end_datetime", "endpoint", "download_job_release",
       "download_job_queue", "chunk_size", "smoke_run", "dry_run", "no_schedule_download",
       "use_temporal", "temporal_start_datetime", "bounding_box"] ∧
    (env.BOUNDING_BOX = none → req.job_params.lookup "bounding_box" = some "") ∧
    (∀ s, env.USE_TEMPORAL = some s → strtobool s = some false →
      req.job_params.lookup "use_temporal" = some "") := by
  obtain ⟨t, ms, mstr, jt, jr, q, ep, dq, cs, s1, s2, s3, s4, b1, b2, b3, b4,
    _, _, _, _, _, _, _, _, _, _, _, _, _, _, _, _, h17, h18, hreq⟩ :=
    build_ok_inversion env event now req hok
  subst hreq
  refine ⟨rfl, ?_, ?_⟩
  · intro h
    rw [lookup_bounding_box, h]
  · intro s hs hfalse
    rw [hs] at h17
    injection h17 with h17
    subst h17
    rw [hfalse] at h18
    injection h18 with h18
    rw [← h18]
    rfl

/-- Witness for C10 at `env0` without a bounding box: all 12 keys, in
order, with empty-string values for the disabled temporal flag and the
absent box. -/
theorem job_params_fixed_keys_witness :
    ∃ req, build_job_submission { env0 with BOUNDING_BOX := none } ev0 0 = Except.ok req ∧
      req.job_params.map Prod.fst =
        ["start_datetime", "end_datetime", "endpoint", "download_job_release",
         "download_job_queue", "chunk_size", "smoke_run", "dry_run", "no_schedule_download",
         "use_temporal", "temporal_start_datetime", "bounding_box"] ∧
      req.job_params.lookup "bounding_box" = some "" ∧
      req.job_params.lookup "use_temporal" = some "" := by
  refine ⟨_, rfl, ?_, ?_, ?_⟩
  · exact (job_params_fixed_keys { env0 with BOUNDING_BOX := none } ev0 0 _ rfl).1
  · exact (job_params_fixed_keys { env0 with BOUNDING_BOX := none } ev0 0 _ rfl).2.1 rfl
  · exact (job_params_fixed_keys { env0 with BOUNDING_BOX := none } ev0 0 _ rfl).2.2 "off"
      rfl (by decide)
